import Mathlib

/-!
# Profile/configuration resolution subsystem — verification development

Shallow embedding of the multi-profile configuration subsystem of the
codemie-code CLI (ConfigStore, ProfileRegistry, CredentialValidator,
ConfigResolver, AwsProfileLookup), together with theorems settling the
behavioural claims about it.

The repository snapshot contains the subsystem's integration tests and CLI
entry points but not the subsystem's own source files, so the component
definitions below are modelled from the specification (each such definition
says so in its doc comment) and checked against the shapes exercised by the
tests in `tests/integration/cli-commands/profile.test.ts` and the
multi-agent E2E test file.
-/

namespace CodeMie

/-- Modelled from the spec: the provider kind of a profile
(`provider: one of {litellm, bedrock}`); source file `src/env/types.ts`
is absent from the snapshot. -/
inductive ProviderKind where
  | litellm
  | bedrock
deriving DecidableEq, Repr

/-- Modelled from the spec: a `ProviderProfile` / `CodeMieConfigOptions`
record (§3 DATA MODEL); source file `src/env/types.ts` is absent from the
snapshot. String fields that the spec treats as possibly absent are
represented with `""` meaning absent (the validator only ever tests
non-emptiness); genuinely optional metadata uses `Option`. -/
structure ProviderProfile where
  provider : ProviderKind
  baseUrl : String
  apiKey : String
  awsSecretAccessKey : String
  awsRegion : String
  awsProfile : String
  model : Option String
  timeout : Option Int
  debug : Option Bool
  name : Option String
deriving DecidableEq, Repr

/-- Modelled from the spec: the persisted `MultiProviderConfig` document
(§3): a `version` tag, an optional `activeProfile` name, and a map from
profile names to profiles kept in insertion order (§4.2 `list()` returns
insertion order), represented as an association list. -/
structure MultiProviderConfig where
  version : Int
  activeProfile : Option String
  profiles : List (String × ProviderProfile)
deriving DecidableEq, Repr

/-- Association-list lookup by profile name (map semantics: first binding
wins). -/
def assocFind {α : Type} : List (String × α) → String → Option α
  | [], _ => none
  | (k, v) :: rest, n => if k = n then some v else assocFind rest n

/-- Removal of a key from an association list (used by `delete`). -/
def removeKey {α : Type} : List (String × α) → String → List (String × α)
  | [], _ => []
  | (k, v) :: rest, n =>
      if k = n then removeKey rest n else (k, v) :: removeKey rest n

/-! ## CredentialValidator (§4.3) -/

/-- Modelled from the spec: the structured missing-field labels that
`CredentialValidator.validate` reports (§4.3); the validator's source file
is absent from the snapshot. `awsProfileAuth` and `staticKeysAuth` are the
"two missing combinations" named when neither Bedrock auth mode is
satisfiable. -/
inductive MissingField where
  | baseUrl
  | apiKey
  | awsRegion
  | awsProfileAuth
  | staticKeysAuth
  | timeout
deriving DecidableEq, Repr

/-- Result of credential validation: `valid`, or `invalid` with the list of
missing/invalid fields. -/
inductive ValidationResult where
  | valid
  | invalid (missing : List MissingField)
deriving DecidableEq, Repr

/-- Modelled from the spec: the missing/invalid-field list computed by
`CredentialValidator.validate` (§4.3), whose source file is absent from
the snapshot. `litellm` requires non-empty `baseUrl` and `apiKey`;
`bedrock` requires non-empty `baseUrl` and `awsRegion` plus either
`awsProfile` non-empty or both `apiKey` and `awsSecretAccessKey` non-empty
(naming both missing combinations otherwise); `timeout`, if present, must
be positive. -/
def missingFields (p : ProviderProfile) : List MissingField :=
  (if p.baseUrl.isEmpty then [MissingField.baseUrl] else []) ++
  (match p.provider with
   | ProviderKind.litellm =>
       if p.apiKey.isEmpty then [MissingField.apiKey] else []
   | ProviderKind.bedrock =>
       (if p.awsRegion.isEmpty then [MissingField.awsRegion] else []) ++
       (if p.awsProfile.isEmpty &&
           (p.apiKey.isEmpty || p.awsSecretAccessKey.isEmpty) then
          [MissingField.awsProfileAuth, MissingField.staticKeysAuth]
        else [])) ++
  (match p.timeout with
   | none => []
   | some t => if 0 < t then [] else [MissingField.timeout])

/-- Modelled from the spec: `CredentialValidator.validate` (§4.3): `Valid`
when nothing is missing, otherwise `Invalid` with the structured
missing-field list. -/
def validate (p : ProviderProfile) : ValidationResult :=
  if missingFields p = [] then ValidationResult.valid
  else ValidationResult.invalid (missingFields p)

/-! ## ProfileRegistry (§4.2) -/

/-- Modelled from the spec: the user-input errors of ProfileRegistry
operations (§4.2, §7); the registry's source file is absent from the
snapshot. -/
inductive RegistryError where
  | duplicateProfile
  | profileNotFound
deriving DecidableEq, Repr

/-- Modelled from the spec: `ProfileRegistry.add(name, profile)` (§4.2):
fails with `DuplicateProfile` if the name already exists (no implicit
upsert); otherwise appends the binding (insertion order preserved). -/
def add (doc : MultiProviderConfig) (n : String) (p : ProviderProfile) :
    Except RegistryError MultiProviderConfig :=
  match assocFind doc.profiles n with
  | some _ => Except.error RegistryError.duplicateProfile
  | none => Except.ok { doc with profiles := doc.profiles ++ [(n, p)] }

/-- Modelled from the spec: `ProfileRegistry.switchActive(name)` (§4.2):
fails with `ProfileNotFound` if the name is absent; on success rewrites
only `activeProfile`. -/
def switchActive (doc : MultiProviderConfig) (n : String) :
    Except RegistryError MultiProviderConfig :=
  match assocFind doc.profiles n with
  | none => Except.error RegistryError.profileNotFound
  | some _ => Except.ok { doc with activeProfile := some n }

/-- Modelled from the spec: `ProfileRegistry.delete(name)` (§4.2): fails
with `ProfileNotFound` if absent; deleting the current active profile
proceeds but clears `activeProfile` to absent. -/
def delete (doc : MultiProviderConfig) (n : String) :
    Except RegistryError MultiProviderConfig :=
  match assocFind doc.profiles n with
  | none => Except.error RegistryError.profileNotFound
  | some _ =>
      Except.ok
        { doc with
          profiles := removeKey doc.profiles n
          activeProfile :=
            if doc.activeProfile = some n then none else doc.activeProfile }

/-- Every registry mutation is a full read-modify-write of the whole
document (§3 Lifecycle): the persisted document after an operation is the
new document on success and the unchanged old document on failure. -/
def persistAfter (doc : MultiProviderConfig)
    (r : Except RegistryError MultiProviderConfig) : MultiProviderConfig :=
  match r with
  | Except.ok doc' => doc'
  | Except.error _ => doc

/-- The document invariant (§3 Invariant 2): `activeProfile`, if set,
references an existing key of `profiles`. -/
def activeOk (doc : MultiProviderConfig) : Prop :=
  ∀ a, doc.activeProfile = some a → assocFind doc.profiles a ≠ none

/-! ## ConfigResolver (§4.4) -/

/-- Modelled from the spec: the explicit CLI flags the resolver merges
(§4.4 step 1): an optional `--profile` name and optional field-level
overrides (`--model`, base-url); the resolver's source file is absent from
the snapshot. -/
structure Flags where
  profile : Option String
  model : Option String
  baseUrl : Option String
deriving DecidableEq, Repr

/-- Modelled from the spec: the provider-scoped environment variables
consumed during fallback resolution (§6): base URL, API key, model for
LiteLLM; base URL, API key, secret key, region, profile name, model for
Bedrock. -/
structure Env where
  litellmBaseUrl : Option String
  litellmApiKey : Option String
  litellmModel : Option String
  bedrockBaseUrl : Option String
  bedrockApiKey : Option String
  bedrockSecretKey : Option String
  bedrockRegion : Option String
  bedrockProfile : Option String
  bedrockModel : Option String
deriving DecidableEq, Repr

/-- The environment with no provider-scoped variable set. -/
def emptyEnv : Env :=
  ⟨none, none, none, none, none, none, none, none, none⟩

/-- Whether any LiteLLM-prefixed variable is set. -/
def Env.anyLitellm (e : Env) : Bool :=
  e.litellmBaseUrl.isSome || e.litellmApiKey.isSome || e.litellmModel.isSome

/-- Whether any Bedrock-prefixed variable is set. -/
def Env.anyBedrock (e : Env) : Bool :=
  e.bedrockBaseUrl.isSome || e.bedrockApiKey.isSome ||
  e.bedrockSecretKey.isSome || e.bedrockRegion.isSome ||
  e.bedrockProfile.isSome || e.bedrockModel.isSome

/-- Modelled from the spec: the "never configured, fall back to env"
candidate profile (§4.4 step 3, §8 env-fallback scenario): a profile is
synthesised from the provider-scoped variables when at least one of them is
set (a missing required variable then surfaces as `IncompleteProfile`
during validation, not as `NoActiveProfile`). -/
def envCandidate (e : Env) : Option ProviderProfile :=
  if e.anyLitellm then
    some
      { provider := ProviderKind.litellm
        baseUrl := e.litellmBaseUrl.getD ""
        apiKey := e.litellmApiKey.getD ""
        awsSecretAccessKey := ""
        awsRegion := ""
        awsProfile := ""
        model := e.litellmModel
        timeout := none
        debug := none
        name := none }
  else if e.anyBedrock then
    some
      { provider := ProviderKind.bedrock
        baseUrl := e.bedrockBaseUrl.getD ""
        apiKey := e.bedrockApiKey.getD ""
        awsSecretAccessKey := e.bedrockSecretKey.getD ""
        awsRegion := e.bedrockRegion.getD ""
        awsProfile := e.bedrockProfile.getD ""
        model := e.bedrockModel
        timeout := none
        debug := none
        name := none }
  else none

/-- Modelled from the spec: the resolution errors of `ConfigResolver`
(§4.4, §7): `NoActiveProfile` when no base profile can be determined,
`ProfileNotFound` when a named profile does not resolve, and
`IncompleteProfile` carrying the missing-field list. -/
inductive ResolutionError where
  | noActiveProfile
  | profileNotFound
  | incompleteProfile (missing : List MissingField)
deriving DecidableEq, Repr

/-- Modelled from the spec: base-profile selection of
`ConfigResolver.resolve` (§4.4, precedence highest first): (1) the stored
profile named by an explicit `--profile` flag; (2) the document's
`activeProfile` when no flag was given; (3) the env-fallback candidate,
consulted only when there is no stored/active profile at all; otherwise
`NoActiveProfile`. Returns the chosen base together with its stored name
(`none` for the env-synthesised profile). -/
def resolveBase (flags : Flags) (doc : Option MultiProviderConfig)
    (env : Env) : Except ResolutionError (Option String × ProviderProfile) :=
  match flags.profile with
  | some n =>
      match doc with
      | none => Except.error ResolutionError.profileNotFound
      | some d =>
          match assocFind d.profiles n with
          | some p => Except.ok (some n, p)
          | none => Except.error ResolutionError.profileNotFound
  | none =>
      match doc with
      | some d =>
          match d.activeProfile with
          | some a =>
              match assocFind d.profiles a with
              | some p => Except.ok (some a, p)
              | none => Except.error ResolutionError.profileNotFound
          | none =>
              match envCandidate env with
              | some p => Except.ok (none, p)
              | none => Except.error ResolutionError.noActiveProfile
      | none =>
          match envCandidate env with
          | some p => Except.ok (none, p)
          | none => Except.error ResolutionError.noActiveProfile

/-- Modelled from the spec: flag-level field overrides applied on top of
the chosen base profile (§4.4: "Once a base profile is chosen, flag-level
field overrides (e.g., `--model`) are applied on top"). -/
def applyOverrides (flags : Flags) (p : ProviderProfile) : ProviderProfile :=
  { p with
    model := match flags.model with
             | some m => some m
             | none => p.model
    baseUrl := flags.baseUrl.getD p.baseUrl }

/-- Modelled from the spec: the `isActive` status marker (§4.4 Status
derivation): the resolved profile's stored name compared against the
document's persisted `activeProfile`, independent of any flag override. -/
def isActiveMark (doc : Option MultiProviderConfig)
    (nm : Option String) : Bool :=
  match doc, nm with
  | some d, some n => d.activeProfile = some n
  | _, _ => false

/-- The effective configuration produced by resolution (§6): the resolved
profile, its stored name (absent for the env-fallback path), and the
active-indicator for status rendering. -/
structure EffectiveProfile where
  name : Option String
  profile : ProviderProfile
  isActive : Bool
deriving DecidableEq, Repr

/-- Modelled from the spec: `ConfigResolver.resolve(flags, storedDoc, env)`
(§4.4): choose the base profile by precedence, apply flag-level overrides,
re-validate via CredentialValidator (a failure is `IncompleteProfile` with
the missing-field list), and attach the `isActive` marker. -/
def resolve (flags : Flags) (doc : Option MultiProviderConfig) (env : Env) :
    Except ResolutionError EffectiveProfile :=
  match resolveBase flags doc env with
  | Except.error e => Except.error e
  | Except.ok (nm, base) =>
      let merged := applyOverrides flags base
      match validate merged with
      | ValidationResult.invalid missing =>
          Except.error (ResolutionError.incompleteProfile missing)
      | ValidationResult.valid =>
          Except.ok ⟨nm, merged, isActiveMark doc nm⟩

/-! ## ConfigStore (§4.1): JSON persistence model -/

/-- A JSON value, as persisted by ConfigStore (§6: "a JSON document at a
resolved path, shape = MultiProviderConfig"). -/
inductive Json where
  | null
  | bool (b : Bool)
  | num (n : Int)
  | str (s : String)
  | arr (xs : List Json)
  | obj (fields : List (String × Json))

/-- The state of the configuration file as seen by `load`: missing, present
but not parseable as JSON, or present with a parsed JSON value. -/
inductive FileState where
  | missing
  | unparseable
  | parsed (j : Json)

/-- Modelled from the spec: the outcome of `ConfigStore.load` (§4.1, §7):
a typed `NotFound` on a missing file, `ConfigCorrupt` for a document whose
top-level structure does not parse, `VersionUnsupported` for a missing or
unrecognized `version` field, or the parsed document. -/
inductive LoadResult where
  | notFound
  | corrupt
  | versionUnsupported
  | ok (doc : MultiProviderConfig)
deriving DecidableEq, Repr

/-- JSON encoding of an optional string (`null` when absent). -/
def encodeOptStr : Option String → Json
  | none => Json.null
  | some s => Json.str s

/-- JSON decoding of an optional string. -/
def decodeOptStr : Json → Option (Option String)
  | Json.null => some none
  | Json.str s => some (some s)
  | _ => none

/-- JSON encoding of an optional integer (`null` when absent). -/
def encodeOptInt : Option Int → Json
  | none => Json.null
  | some n => Json.num n

/-- JSON decoding of an optional integer. -/
def decodeOptInt : Json → Option (Option Int)
  | Json.null => some none
  | Json.num n => some (some n)
  | _ => none

/-- JSON encoding of an optional boolean (`null` when absent). -/
def encodeOptBool : Option Bool → Json
  | none => Json.null
  | some b => Json.bool b

/-- JSON decoding of an optional boolean. -/
def decodeOptBool : Json → Option (Option Bool)
  | Json.null => some none
  | Json.bool b => some (some b)
  | _ => none

/-- The string tag serialising a provider kind. -/
def providerToString : ProviderKind → String
  | ProviderKind.litellm => "litellm"
  | ProviderKind.bedrock => "bedrock"

/-- Parsing a provider-kind tag. -/
def providerOfString (s : String) : Option ProviderKind :=
  if s = "litellm" then some ProviderKind.litellm
  else if s = "bedrock" then some ProviderKind.bedrock
  else none

/-- Modelled from the spec: serialisation of one profile, with the field
names used by the persisted document (§3, and the test fixtures in
`profile.test.ts`). -/
def encodeProfile (p : ProviderProfile) : Json :=
  Json.obj
    [("provider", Json.str (providerToString p.provider)),
     ("baseUrl", Json.str p.baseUrl),
     ("apiKey", Json.str p.apiKey),
     ("awsSecretAccessKey", Json.str p.awsSecretAccessKey),
     ("awsRegion", Json.str p.awsRegion),
     ("awsProfile", Json.str p.awsProfile),
     ("model", encodeOptStr p.model),
     ("timeout", encodeOptInt p.timeout),
     ("debug", encodeOptBool p.debug),
     ("name", encodeOptStr p.name)]

/-- Modelled from the spec: deserialisation of one profile (the inverse of
`encodeProfile`); a shape mismatch yields `none`. -/
def decodeProfile : Json → Option ProviderProfile
  | Json.obj
      [("provider", Json.str pv),
       ("baseUrl", Json.str b),
       ("apiKey", Json.str k),
       ("awsSecretAccessKey", Json.str sk),
       ("awsRegion", Json.str r),
       ("awsProfile", Json.str ap),
       ("model", m),
       ("timeout", t),
       ("debug", d),
       ("name", nm)] =>
      match providerOfString pv, decodeOptStr m, decodeOptInt t,
            decodeOptBool d, decodeOptStr nm with
      | some prov, some m', some t', some d', some nm' =>
          some ⟨prov, b, k, sk, r, ap, m', t', d', nm'⟩
      | _, _, _, _, _ => none
  | _ => none

/-- Serialisation of the profiles map. -/
def encodeProfiles (ps : List (String × ProviderProfile)) :
    List (String × Json) :=
  ps.map (fun kv => (kv.1, encodeProfile kv.2))

/-- Deserialisation of the profiles map; any malformed entry fails the
whole decode. -/
def decodeProfiles : List (String × Json) →
    Option (List (String × ProviderProfile))
  | [] => some []
  | (n, j) :: rest =>
      match decodeProfile j, decodeProfiles rest with
      | some p, some ps => some ((n, p) :: ps)
      | _, _ => none

/-- Modelled from the spec: `ConfigStore.save` (§4.1) at the document
level: the file afterwards holds the JSON serialisation of the document
(`version`/`activeProfile`/`profiles` always present, §6). -/
def save (doc : MultiProviderConfig) : FileState :=
  FileState.parsed
    (Json.obj
      [("version", Json.num doc.version),
       ("activeProfile", encodeOptStr doc.activeProfile),
       ("profiles", Json.obj (encodeProfiles doc.profiles))])

/-- The currently supported schema version (§3: current value `2`). -/
def supportedVersion : Int := 2

/-- Modelled from the spec: `ConfigStore.load` (§4.1): a missing file is a
typed `NotFound`; a file that does not parse is `ConfigCorrupt`; a parsed
document whose `version` field is missing or unrecognized is
`VersionUnsupported`; any other shape violation is `ConfigCorrupt`; no
best-effort recovery. -/
def load (fs : FileState) : LoadResult :=
  match fs with
  | FileState.missing => LoadResult.notFound
  | FileState.unparseable => LoadResult.corrupt
  | FileState.parsed (Json.obj fields) =>
      match assocFind fields "version" with
      | some (Json.num v) =>
          if v = supportedVersion then
            match assocFind fields "activeProfile",
                  assocFind fields "profiles" with
            | some a, some (Json.obj ps) =>
                match decodeOptStr a, decodeProfiles ps with
                | some act, some prs => LoadResult.ok ⟨v, act, prs⟩
                | _, _ => LoadResult.corrupt
            | _, _ => LoadResult.corrupt
          else LoadResult.versionUnsupported
      | some _ => LoadResult.versionUnsupported
      | none => LoadResult.versionUnsupported
  | FileState.parsed _ => LoadResult.corrupt

/-! ## AwsProfileLookup (§4.5) -/

/-- The AWS credentials file, INI-like (§6): a list of
`[profile-name]` sections, each holding key/value entries such as
`aws_access_key_id` and `aws_secret_access_key`; `none` models the file
not existing. -/
def CredentialsFile : Type := Option (List (String × List (String × String)))

/-- Modelled from the spec: the single error kind of AwsProfileLookup
(§4.5, §7). -/
inductive LookupError where
  | profileNotFoundInCredentialsFile
deriving DecidableEq, Repr

/-- ASCII lower-casing of one character (the case-insensitive header match
of §4.5 and the `i`-flagged regex in the test setup). -/
def lowerChar (c : Char) : Char :=
  if 65 ≤ c.toNat ∧ c.toNat ≤ 90 then Char.ofNat (c.toNat + 32) else c

/-- ASCII lower-casing of a string. -/
def lowerStr (s : String) : String := String.mk (s.data.map lowerChar)

/-- Case-insensitive section search in the credentials file. -/
def findSection (sections : List (String × List (String × String)))
    (profileName : String) : Option (List (String × String)) :=
  match sections with
  | [] => none
  | (h, entries) :: rest =>
      if lowerStr h = lowerStr profileName then some entries
      else findSection rest profileName

/-- Modelled from the spec:
`AwsProfileLookup.resolveStaticCredentials(profileName)` (§4.5): locate the
section whose header matches the profile name case-insensitively and
extract `aws_access_key_id` / `aws_secret_access_key`; absence of the file
itself is reported the same as the section being absent. -/
def resolveStaticCredentials (file : CredentialsFile) (profileName : String) :
    Except LookupError (String × String) :=
  match file with
  | none => Except.error LookupError.profileNotFoundInCredentialsFile
  | some sections =>
      match findSection sections profileName with
      | none => Except.error LookupError.profileNotFoundInCredentialsFile
      | some entries =>
          match assocFind entries "aws_access_key_id",
                assocFind entries "aws_secret_access_key" with
          | some ak, some sk => Except.ok (ak, sk)
          | _, _ => Except.error LookupError.profileNotFoundInCredentialsFile

/-! ## Bedrock auth-mode selection (sentinel) -/

/-- Modelled from the spec: the sentinel carried in `apiKey` that signals
"use `awsProfile`" for a Bedrock profile (§3: "for profile-based auth this
field is a sentinel"); the exact string comes from the test fixtures
(`apiKey: 'aws-profile'` in `profile.test.ts` and the multi-agent E2E
test). -/
def awsProfileSentinel : String := "aws-profile"

/-- The two Bedrock authentication modes (§3 Invariant 3). -/
inductive AuthMode where
  | namedProfile (profileName : String)
  | staticKeys (accessKeyId secretAccessKey : String)
deriving DecidableEq, Repr

/-- Modelled from the spec: Bedrock auth-mode selection (§3 Invariant 3,
§9 design note): named-profile auth is selected exactly when `apiKey`
carries the profile sentinel and `awsProfile` is non-empty; otherwise the
`apiKey`/`awsSecretAccessKey` pair is used as static keys. -/
def selectBedrockAuth (p : ProviderProfile) : AuthMode :=
  if p.apiKey = awsProfileSentinel && !p.awsProfile.isEmpty then
    AuthMode.namedProfile p.awsProfile
  else
    AuthMode.staticKeys p.apiKey p.awsSecretAccessKey

/-- Modelled from the spec: credential materialisation for a Bedrock
profile: named-profile auth goes through AwsProfileLookup, static-key auth
uses the inline pair (§4.5, §2 ConfigResolver "calls ... AwsProfileLookup
if needed"). -/
def resolveBedrockCredentials (p : ProviderProfile) (file : CredentialsFile) :
    Except LookupError (String × String) :=
  match selectBedrockAuth p with
  | AuthMode.namedProfile n => resolveStaticCredentials file n
  | AuthMode.staticKeys ak sk => Except.ok (ak, sk)

/-! ## Helper lemmas -/

theorem assocFind_append_of_some {α : Type} {l : List (String × α)}
    {a : String} {q : α} (l2 : List (String × α))
    (h : assocFind l a = some q) : assocFind (l ++ l2) a = some q := by
  induction l with
  | nil => simp [assocFind] at h
  | cons kv rest ih =>
      obtain ⟨k, v⟩ := kv
      by_cases hk : k = a
      · simp [assocFind, hk] at h ⊢
        exact h
      · simp [assocFind, hk] at h ⊢
        exact ih h

theorem assocFind_removeKey_ne {α : Type} (l : List (String × α))
    {a n : String} (h : a ≠ n) :
    assocFind (removeKey l n) a = assocFind l a := by
  induction l with
  | nil => simp [removeKey]
  | cons kv rest ih =>
      obtain ⟨k, v⟩ := kv
      have hna : ¬n = a := fun e => h e.symm
      by_cases hk : k = n
      · simp [removeKey, assocFind, hk, ih, hna]
      · by_cases hka : k = a
        · simp [removeKey, assocFind, hk, hka, h]
        · simp [removeKey, assocFind, hk, hka, ih]

theorem validate_eq_valid_iff (p : ProviderProfile) :
    validate p = ValidationResult.valid ↔ missingFields p = [] := by
  unfold validate
  split <;> simp_all

theorem validate_eq_invalid (p : ProviderProfile)
    (h : missingFields p ≠ []) :
    validate p = ValidationResult.invalid (missingFields p) := by
  unfold validate
  simp [h]

theorem decodeOptStr_encode (x : Option String) :
    decodeOptStr (encodeOptStr x) = some x := by
  cases x <;> rfl

theorem decodeOptInt_encode (x : Option Int) :
    decodeOptInt (encodeOptInt x) = some x := by
  cases x <;> rfl

theorem decodeOptBool_encode (x : Option Bool) :
    decodeOptBool (encodeOptBool x) = some x := by
  cases x <;> rfl

theorem providerOfString_toString (k : ProviderKind) :
    providerOfString (providerToString k) = some k := by
  cases k <;> rfl

theorem decodeProfile_encode (p : ProviderProfile) :
    decodeProfile (encodeProfile p) = some p := by
  rcases p with ⟨prov, b, k, sk, r, ap, m, t, d, nm⟩
  cases prov <;> cases m <;> cases t <;> cases d <;> cases nm <;> rfl

theorem decodeProfiles_encode (l : List (String × ProviderProfile)) :
    decodeProfiles (encodeProfiles l) = some l := by
  induction l with
  | nil => rfl
  | cons kv rest ih =>
      obtain ⟨n, p⟩ := kv
      show decodeProfiles ((n, encodeProfile p) :: encodeProfiles rest) =
        some ((n, p) :: rest)
      simp only [decodeProfiles]
      rw [decodeProfile_encode, ih]

/-! ## Claim theorems -/

/-- C10: the sentinel that selects named-AWS-profile authentication for a
bedrock profile is the exact string `aws-profile` in the `apiKey` field:
with that sentinel and a non-empty `awsProfile`, resolution uses the
named-profile auth mode, looking credentials up via AwsProfileLookup,
rather than treating the sentinel as a real AWS access key id. -/
theorem c10_sentinel_selects_named_profile (p : ProviderProfile)
    (_hb : p.provider = ProviderKind.bedrock)
    (hk : p.apiKey = awsProfileSentinel)
    (hp : ¬p.awsProfile.isEmpty) (file : CredentialsFile) :
    selectBedrockAuth p = AuthMode.namedProfile p.awsProfile ∧
    resolveBedrockCredentials p file =
      resolveStaticCredentials file p.awsProfile := by
  have hsel : selectBedrockAuth p = AuthMode.namedProfile p.awsProfile := by
    simp [selectBedrockAuth, hk, hp]
  exact ⟨hsel, by simp [resolveBedrockCredentials, hsel]⟩

/-- Witness for C10 at a concrete bedrock profile using the sentinel. -/
theorem c10_witness :
    selectBedrockAuth
      ⟨ProviderKind.bedrock, "https://bedrock-runtime.us-east-1.amazonaws.com",
       "aws-profile", "", "us-east-1", "dev", none, some 300, none, none⟩ =
      AuthMode.namedProfile "dev" ∧
    resolveBedrockCredentials
      ⟨ProviderKind.bedrock, "https://bedrock-runtime.us-east-1.amazonaws.com",
       "aws-profile", "", "us-east-1", "dev", none, some 300, none, none⟩
      (some [("dev", [("aws_access_key_id", "AKIA"),
                      ("aws_secret_access_key", "SECRET")])]) =
      resolveStaticCredentials
        (some [("dev", [("aws_access_key_id", "AKIA"),
                        ("aws_secret_access_key", "SECRET")])]) "dev" :=
  c10_sentinel_selects_named_profile
    ⟨ProviderKind.bedrock, "https://bedrock-runtime.us-east-1.amazonaws.com",
     "aws-profile", "", "us-east-1", "dev", none, some 300, none, none⟩
    rfl rfl (by decide)
    (some [("dev", [("aws_access_key_id", "AKIA"),
                    ("aws_secret_access_key", "SECRET")])])

/-- C8: `resolveStaticCredentials` returns the key pair from the
credentials-file section whose header matches the profile name
case-insensitively, and reports `ProfileNotFoundInCredentialsFile` both
when the section is absent and when the file itself does not exist — the
two absence cases produce the identical result. -/
theorem c8_resolve_static_credentials (name : String) :
    (resolveStaticCredentials (none : CredentialsFile) name =
       Except.error LookupError.profileNotFoundInCredentialsFile) ∧
    (∀ sections, findSection sections name = none →
       resolveStaticCredentials (some sections) name =
         resolveStaticCredentials (none : CredentialsFile) name) ∧
    (∀ h entries rest, lowerStr h = lowerStr name →
       findSection ((h, entries) :: rest) name = some entries) ∧
    (∀ sections entries ak sk, findSection sections name = some entries →
       assocFind entries "aws_access_key_id" = some ak →
       assocFind entries "aws_secret_access_key" = some sk →
       resolveStaticCredentials (some sections) name = Except.ok (ak, sk)) := by
  refine ⟨rfl, ?_, ?_, ?_⟩
  · intro sections hs
    simp [resolveStaticCredentials, hs]
  · intro h entries rest hmatch
    simp [findSection, hmatch]
  · intro sections entries ak sk hs hak hsk
    simp [resolveStaticCredentials, hs, hak, hsk]

/-- Witness for C8: a section whose header differs from the queried name
only by case is found, and a missing section equals the missing-file
result. -/
theorem c8_witness :
    resolveStaticCredentials
      (some [("DEV", [("aws_access_key_id", "AKIA"),
                      ("aws_secret_access_key", "SEC")])]) "dev" =
      Except.ok ("AKIA", "SEC") ∧
    resolveStaticCredentials (some [("other", [])]) "dev" =
      resolveStaticCredentials (none : CredentialsFile) "dev" := by
  have h := c8_resolve_static_credentials "dev"
  refine ⟨h.2.2.2 [("DEV", [("aws_access_key_id", "AKIA"),
                            ("aws_secret_access_key", "SEC")])]
            [("aws_access_key_id", "AKIA"), ("aws_secret_access_key", "SEC")]
            "AKIA" "SEC" ?_ rfl rfl,
          h.2.1 [("other", [])] ?_⟩
  · decide
  · decide

/-- C4: `switchActive` on an absent name fails with `ProfileNotFound` and
the persisted document is unchanged; on a present name it succeeds,
rewriting only the `activeProfile` field and leaving version and every
profile body untouched. -/
theorem c4_switch_active (doc : MultiProviderConfig) (n : String) :
    (assocFind doc.profiles n = none →
       switchActive doc n = Except.error RegistryError.profileNotFound ∧
       persistAfter doc (switchActive doc n) = doc) ∧
    (∀ p, assocFind doc.profiles n = some p →
       ∃ d2, switchActive doc n = Except.ok d2 ∧
         d2.activeProfile = some n ∧
         d2.profiles = doc.profiles ∧
         d2.version = doc.version) := by
  constructor
  · intro habs
    simp [switchActive, habs, persistAfter]
  · intro p hp
    refine ⟨{ doc with activeProfile := some n }, ?_, rfl, rfl, rfl⟩
    simp [switchActive, hp]

/-- Witness for C4: a concrete two-profile document; switching to a missing
name fails and leaves the document unchanged, switching to a present name
rewrites only `activeProfile`. -/
theorem c4_witness :
    (switchActive
       ⟨2, some "litellm",
        [("litellm",
          ⟨ProviderKind.litellm, "http://gw", "k", "", "", "", some "gpt-4.1",
           some 300, none, none⟩)]⟩ "missing" =
       Except.error RegistryError.profileNotFound ∧
     persistAfter
       ⟨2, some "litellm",
        [("litellm",
          ⟨ProviderKind.litellm, "http://gw", "k", "", "", "", some "gpt-4.1",
           some 300, none, none⟩)]⟩
       (switchActive
         ⟨2, some "litellm",
          [("litellm",
            ⟨ProviderKind.litellm, "http://gw", "k", "", "", "", some "gpt-4.1",
             some 300, none, none⟩)]⟩ "missing") =
       ⟨2, some "litellm",
        [("litellm",
          ⟨ProviderKind.litellm, "http://gw", "k", "", "", "", some "gpt-4.1",
           some 300, none, none⟩)]⟩) ∧
    (∃ d2,
       switchActive
         ⟨2, some "litellm",
          [("litellm",
            ⟨ProviderKind.litellm, "http://gw", "k", "", "", "", some "gpt-4.1",
             some 300, none, none⟩)]⟩ "litellm" =
         Except.ok d2 ∧
       d2.activeProfile = some "litellm" ∧
       d2.profiles =
         [("litellm",
           ⟨ProviderKind.litellm, "http://gw", "k", "", "", "", some "gpt-4.1",
            some 300, none, none⟩)] ∧
       d2.version = 2) :=
  ⟨(c4_switch_active
      ⟨2, some "litellm",
       [("litellm",
         ⟨ProviderKind.litellm, "http://gw", "k", "", "", "", some "gpt-4.1",
          some 300, none, none⟩)]⟩ "missing").1 (by decide),
   (c4_switch_active
      ⟨2, some "litellm",
       [("litellm",
         ⟨ProviderKind.litellm, "http://gw", "k", "", "", "", some "gpt-4.1",
          some 300, none, none⟩)]⟩ "litellm").2
     ⟨ProviderKind.litellm, "http://gw", "k", "", "", "", some "gpt-4.1",
      some 300, none, none⟩ (by decide)⟩

/-- C5: every registry operation preserves the invariant that
`activeProfile`, when present, references an existing key of the profiles
map; deleting the current active profile succeeds but clears
`activeProfile`, after which resolution with no flags and no matching
environment variables fails with `NoActiveProfile`. -/
theorem c5_registry_invariant (doc : MultiProviderConfig)
    (hinv : activeOk doc) :
    (∀ n p d2, add doc n p = Except.ok d2 → activeOk d2) ∧
    (∀ n d2, switchActive doc n = Except.ok d2 → activeOk d2) ∧
    (∀ n d2, delete doc n = Except.ok d2 → activeOk d2) ∧
    (∀ n d2, doc.activeProfile = some n → delete doc n = Except.ok d2 →
       d2.activeProfile = none ∧
       resolve ⟨none, none, none⟩ (some d2) emptyEnv =
         Except.error ResolutionError.noActiveProfile) := by
  refine ⟨?_, ?_, ?_, ?_⟩
  · intro n p d2 hok
    rcases hq : assocFind doc.profiles n with _ | q
    · simp [add, hq] at hok
      subst hok
      intro a ha
      have h1 := hinv a ha
      rcases h2 : assocFind doc.profiles a with _ | q2
      · exact absurd h2 h1
      · simp [assocFind_append_of_some _ h2]
    · simp [add, hq] at hok
  · intro n d2 hok
    rcases hq : assocFind doc.profiles n with _ | q
    · simp [switchActive, hq] at hok
    · simp [switchActive, hq] at hok
      subst hok
      intro a ha
      simp at ha
      subst ha
      simp [hq]
  · intro n d2 hok
    rcases hq : assocFind doc.profiles n with _ | q
    · simp [delete, hq] at hok
    · simp [delete, hq] at hok
      subst hok
      intro a ha
      by_cases hact : doc.activeProfile = some n
      · simp [hact] at ha
      · simp [hact] at ha
        have hne : a ≠ n := by
          intro he
          exact hact (he ▸ ha)
        rw [assocFind_removeKey_ne _ hne]
        exact hinv a ha
  · intro n d2 hact hok
    rcases hq : assocFind doc.profiles n with _ | q
    · exact absurd hq (hinv n hact)
    · simp [delete, hq, hact] at hok
      subst hok
      refine ⟨rfl, ?_⟩
      simp [resolve, resolveBase, envCandidate, emptyEnv, Env.anyLitellm,
            Env.anyBedrock]

/-- Witness for C5: a concrete one-profile document whose active profile is
deleted; `activeProfile` is cleared and a flagless, env-free resolution
fails with `NoActiveProfile`. -/
theorem c5_witness :
    (⟨2, none, []⟩ : MultiProviderConfig).activeProfile = none ∧
    resolve ⟨none, none, none⟩ (some ⟨2, none, []⟩) emptyEnv =
      Except.error ResolutionError.noActiveProfile := by
  have hinv0 :
      activeOk
        ⟨2, some "litellm",
         [("litellm",
           ⟨ProviderKind.litellm, "http://gw", "k", "", "", "",
            some "gpt-4.1", some 300, none, none⟩)]⟩ := by
    intro a ha
    simp at ha
    subst ha
    simp [assocFind]
  exact
    (c5_registry_invariant
       ⟨2, some "litellm",
        [("litellm",
          ⟨ProviderKind.litellm, "http://gw", "k", "", "", "",
           some "gpt-4.1", some 300, none, none⟩)]⟩ hinv0).2.2.2
      "litellm" ⟨2, none, []⟩ rfl rfl

/-- C6: `load` returns a typed `NotFound` exactly on a missing file, a
`ConfigCorrupt` on an unparseable file, and `VersionUnsupported` when the
`version` field is missing, non-numeric, or unrecognized; a parsed document
is produced in no other way, so the three outcomes are distinguishable by
kind. -/
theorem c6_load_taxonomy :
    (load FileState.missing = LoadResult.notFound) ∧
    (load FileState.unparseable = LoadResult.corrupt) ∧
    (∀ j, load (FileState.parsed j) ≠ LoadResult.notFound) ∧
    (∀ fields, assocFind fields "version" = none →
       load (FileState.parsed (Json.obj fields)) =
         LoadResult.versionUnsupported) ∧
    (∀ fields v, assocFind fields "version" = some (Json.num v) →
       v ≠ supportedVersion →
       load (FileState.parsed (Json.obj fields)) =
         LoadResult.versionUnsupported) ∧
    (∀ fields j, assocFind fields "version" = some j →
       (∀ v, j ≠ Json.num v) →
       load (FileState.parsed (Json.obj fields)) =
         LoadResult.versionUnsupported) ∧
    (∀ fs doc, load fs = LoadResult.ok doc → ∃ j, fs = FileState.parsed j) := by
  refine ⟨rfl, rfl, ?_, ?_, ?_, ?_, ?_⟩
  · intro j
    cases j <;> simp only [load] <;> (repeat' split) <;> simp
  · intro fields hfind
    simp [load, hfind]
  · intro fields v hfind hv
    simp [load, hfind, hv]
  · intro fields j hfind hnum
    cases j
    case num v => exact absurd rfl (hnum v)
    all_goals simp [load, hfind]
  · intro fs doc hok
    cases fs with
    | missing => simp [load] at hok
    | unparseable => simp [load] at hok
    | parsed j => exact ⟨j, rfl⟩

/-- Witness for C6: concrete file states hitting the `NotFound`,
`ConfigCorrupt`, missing-version and wrong-version outcomes. -/
theorem c6_witness :
    load FileState.missing = LoadResult.notFound ∧
    load FileState.unparseable = LoadResult.corrupt ∧
    load (FileState.parsed (Json.obj [])) = LoadResult.versionUnsupported ∧
    load (FileState.parsed (Json.obj [("version", Json.num 1)])) =
      LoadResult.versionUnsupported :=
  ⟨c6_load_taxonomy.1, c6_load_taxonomy.2.1,
   c6_load_taxonomy.2.2.2.1 [] rfl,
   c6_load_taxonomy.2.2.2.2.1 [("version", Json.num 1)] 1 rfl (by decide)⟩

/-- C7: saving a valid document (current schema version) and loading it
back yields a structurally identical document: same version, same
`activeProfile`, and the same profiles with the same values. -/
theorem c7_round_trip (doc : MultiProviderConfig)
    (hv : doc.version = supportedVersion) :
    load (save doc) = LoadResult.ok doc := by
  rcases doc with ⟨v, act, ps⟩
  simp only at hv
  subst hv
  simp [save, load, assocFind, decodeOptStr_encode, decodeProfiles_encode,
        supportedVersion]

/-- Witness for C7 at a concrete version-2 document holding a litellm and a
bedrock profile. -/
theorem c7_witness :
    load
      (save
        ⟨2, some "litellm",
         [("litellm",
           ⟨ProviderKind.litellm, "http://gw", "k", "", "", "",
            some "gpt-4.1", some 300, none, none⟩),
          ("bedrock-profile",
           ⟨ProviderKind.bedrock,
            "https://bedrock-runtime.us-east-1.amazonaws.com", "aws-profile",
            "", "us-east-1", "dev", some "claude", some 300, some false,
            some "bedrock-profile"⟩)]⟩) =
      LoadResult.ok
        ⟨2, some "litellm",
         [("litellm",
           ⟨ProviderKind.litellm, "http://gw", "k", "", "", "",
            some "gpt-4.1", some 300, none, none⟩),
          ("bedrock-profile",
           ⟨ProviderKind.bedrock,
            "https://bedrock-runtime.us-east-1.amazonaws.com", "aws-profile",
            "", "us-east-1", "dev", some "claude", some 300, some false,
            some "bedrock-profile"⟩)]⟩ :=
  c7_round_trip _ rfl

/-- C1: `resolve` chooses its base profile with the precedence: the stored
profile named by an explicit `--profile` flag; otherwise the document's
`activeProfile`; otherwise the provider-scoped environment candidate,
consulted only when there is no stored/active profile at all (the
base-choice never depends on the environment while a flag or active
profile exists); if none of the three yields a base, resolution fails with
`NoActiveProfile`. -/
theorem c1_resolve_precedence (flags : Flags) (doc : MultiProviderConfig)
    (env : Env) :
    (∀ n p, flags.profile = some n → assocFind doc.profiles n = some p →
       resolveBase flags (some doc) env = Except.ok (some n, p)) ∧
    (∀ a p, flags.profile = none → doc.activeProfile = some a →
       assocFind doc.profiles a = some p →
       resolveBase flags (some doc) env = Except.ok (some a, p)) ∧
    (∀ p, flags.profile = none → doc.activeProfile = none →
       envCandidate env = some p →
       resolveBase flags (some doc) env = Except.ok (none, p)) ∧
    (∀ p, flags.profile = none → envCandidate env = some p →
       resolveBase flags none env = Except.ok (none, p)) ∧
    ((flags.profile ≠ none ∨ doc.activeProfile ≠ none) →
       ∀ env2, resolveBase flags (some doc) env =
         resolveBase flags (some doc) env2) ∧
    (flags.profile = none → doc.activeProfile = none →
       envCandidate env = none →
       resolve flags (some doc) env =
         Except.error ResolutionError.noActiveProfile) ∧
    (flags.profile = none → envCandidate env = none →
       resolve flags none env =
         Except.error ResolutionError.noActiveProfile) := by
  refine ⟨?_, ?_, ?_, ?_, ?_, ?_, ?_⟩
  · intro n p hf hfind
    simp [resolveBase, hf, hfind]
  · intro a p hf hact hfind
    simp [resolveBase, hf, hact, hfind]
  · intro p hf hact henv
    simp [resolveBase, hf, hact, henv]
  · intro p hf henv
    simp [resolveBase, hf, henv]
  · intro hbase env2
    rcases hf : flags.profile with _ | n
    · rcases hact : doc.activeProfile with _ | a
      · rcases hbase with hb | hb
        · exact absurd hf hb
        · exact absurd hact hb
      · simp [resolveBase, hf, hact]
    · simp [resolveBase, hf]
  · intro hf hact henv
    simp [resolve, resolveBase, hf, hact, henv]
  · intro hf henv
    simp [resolve, resolveBase, hf, henv]

/-- Witness for C1: a concrete document with active profile `litellm` and a
second stored profile; the flag override wins, then the active profile,
then the env fallback, and with nothing available resolution fails with
`NoActiveProfile`. -/
theorem c1_witness :
    resolveBase ⟨some "bedrock-creds", none, none⟩
      (some
        ⟨2, some "litellm",
         [("litellm",
           ⟨ProviderKind.litellm, "http://gw", "k", "", "", "",
            some "gpt-4.1", some 300, none, none⟩),
          ("bedrock-creds",
           ⟨ProviderKind.bedrock,
            "https://bedrock-runtime.us-east-1.amazonaws.com", "AKIA", "SEC",
            "us-east-1", "", some "claude", some 300, none, none⟩)]⟩)
      emptyEnv =
      Except.ok
        (some "bedrock-creds",
         ⟨ProviderKind.bedrock,
          "https://bedrock-runtime.us-east-1.amazonaws.com", "AKIA", "SEC",
          "us-east-1", "", some "claude", some 300, none, none⟩) ∧
    resolveBase ⟨none, none, none⟩
      (some
        ⟨2, some "litellm",
         [("litellm",
           ⟨ProviderKind.litellm, "http://gw", "k", "", "", "",
            some "gpt-4.1", some 300, none, none⟩),
          ("bedrock-creds",
           ⟨ProviderKind.bedrock,
            "https://bedrock-runtime.us-east-1.amazonaws.com", "AKIA", "SEC",
            "us-east-1", "", some "claude", some 300, none, none⟩)]⟩)
      emptyEnv =
      Except.ok
        (some "litellm",
         ⟨ProviderKind.litellm, "http://gw", "k", "", "", "",
          some "gpt-4.1", some 300, none, none⟩) ∧
    resolveBase ⟨none, none, none⟩ none
      ⟨some "http://gw", some "k", some "gpt-4.1", none, none, none, none,
       none, none⟩ =
      Except.ok
        (none,
         ⟨ProviderKind.litellm, "http://gw", "k", "", "", "",
          some "gpt-4.1", none, none, none⟩) ∧
    resolve ⟨none, none, none⟩ none emptyEnv =
      Except.error ResolutionError.noActiveProfile := by
  refine ⟨?_, ?_, ?_, ?_⟩
  · exact
      (c1_resolve_precedence ⟨some "bedrock-creds", none, none⟩
        ⟨2, some "litellm",
         [("litellm",
           ⟨ProviderKind.litellm, "http://gw", "k", "", "", "",
            some "gpt-4.1", some 300, none, none⟩),
          ("bedrock-creds",
           ⟨ProviderKind.bedrock,
            "https://bedrock-runtime.us-east-1.amazonaws.com", "AKIA", "SEC",
            "us-east-1", "", some "claude", some 300, none, none⟩)]⟩
        emptyEnv).1 "bedrock-creds" _ rfl (by decide)
  · exact
      (c1_resolve_precedence ⟨none, none, none⟩
        ⟨2, some "litellm",
         [("litellm",
           ⟨ProviderKind.litellm, "http://gw", "k", "", "", "",
            some "gpt-4.1", some 300, none, none⟩),
          ("bedrock-creds",
           ⟨ProviderKind.bedrock,
            "https://bedrock-runtime.us-east-1.amazonaws.com", "AKIA", "SEC",
            "us-east-1", "", some "claude", some 300, none, none⟩)]⟩
        emptyEnv).2.1 "litellm" _ rfl rfl (by decide)
  · exact
      (c1_resolve_precedence ⟨none, none, none⟩ ⟨2, none, []⟩
        ⟨some "http://gw", some "k", some "gpt-4.1", none, none, none, none,
         none, none⟩).2.2.2.1 _ rfl rfl
  · exact
      (c1_resolve_precedence ⟨none, none, none⟩ ⟨2, none, []⟩
        emptyEnv).2.2.2.2.2.2 rfl rfl

/-- C3: the `isActive` marker on a successfully resolved profile is true
exactly when the resolved profile's stored name equals the document's
persisted `activeProfile`; in particular, resolving with `--profile`
naming a non-active stored profile returns that profile's fields with
`isActive = false` (resolution is a pure function of the stored document,
so the persisted `activeProfile` is not mutated). -/
theorem c3_is_active_marker (flags : Flags) (doc : MultiProviderConfig)
    (env : Env) :
    (∀ eff, resolve flags (some doc) env = Except.ok eff →
       (eff.isActive = true ↔
         ∃ n, eff.name = some n ∧ doc.activeProfile = some n)) ∧
    (∀ n p, assocFind doc.profiles n = some p →
       doc.activeProfile ≠ some n →
       validate p = ValidationResult.valid →
       resolve ⟨some n, none, none⟩ (some doc) env =
         Except.ok ⟨some n, p, false⟩) := by
  constructor
  · intro eff hok
    simp only [resolve] at hok
    rcases hbase : resolveBase flags (some doc) env with e | nmbase
    · rw [hbase] at hok
      simp at hok
    · obtain ⟨nm, base⟩ := nmbase
      rw [hbase] at hok
      dsimp only at hok
      rcases hval : validate (applyOverrides flags base) with _ | missing
      · rw [hval] at hok
        simp at hok
        subst hok
        cases nm with
        | none => simp [isActiveMark]
        | some n => simp [isActiveMark]
      · rw [hval] at hok
        simp at hok
  · intro n p hfind hnact hval
    have happ : applyOverrides ⟨some n, none, none⟩ p = p := rfl
    have hmark : isActiveMark (some doc) (some n) = false := by
      simp [isActiveMark, hnact]
    simp [resolve, resolveBase, hfind, happ, hval, hmark]

/-- Witness for C3: resolving the concrete document whose active profile is
`litellm` with `--profile bedrock-creds` returns the bedrock profile's
fields with `isActive = false`. -/
theorem c3_witness :
    resolve ⟨some "bedrock-creds", none, none⟩
      (some
        ⟨2, some "litellm",
         [("litellm",
           ⟨ProviderKind.litellm, "http://gw", "k", "", "", "",
            some "gpt-4.1", some 300, none, none⟩),
          ("bedrock-creds",
           ⟨ProviderKind.bedrock,
            "https://bedrock-runtime.us-east-1.amazonaws.com", "AKIA", "SEC",
            "us-east-1", "", some "claude", some 300, none, none⟩)]⟩)
      emptyEnv =
      Except.ok
        ⟨some "bedrock-creds",
         ⟨ProviderKind.bedrock,
          "https://bedrock-runtime.us-east-1.amazonaws.com", "AKIA", "SEC",
          "us-east-1", "", some "claude", some 300, none, none⟩, false⟩ :=
  (c3_is_active_marker ⟨some "bedrock-creds", none, none⟩
    ⟨2, some "litellm",
     [("litellm",
       ⟨ProviderKind.litellm, "http://gw", "k", "", "", "",
        some "gpt-4.1", some 300, none, none⟩),
      ("bedrock-creds",
       ⟨ProviderKind.bedrock,
        "https://bedrock-runtime.us-east-1.amazonaws.com", "AKIA", "SEC",
        "us-east-1", "", some "claude", some 300, none, none⟩)]⟩
    emptyEnv).2 "bedrock-creds" _ (by decide) (by decide) (by decide)

/-- C2 counterexample: a bedrock profile with non-empty `baseUrl`,
`awsRegion` and `awsProfile` (so the named-profile auth mode is satisfied)
but a non-positive `timeout` is not `Valid`, refuting "returns Valid
exactly when baseUrl and awsRegion are non-empty and at least one auth
mode is satisfied". -/
theorem c2_counterexample :
    validate
      ⟨ProviderKind.bedrock,
       "https://bedrock-runtime.us-east-1.amazonaws.com", "", "",
       "us-east-1", "dev", none, some 0, none, none⟩ ≠
      ValidationResult.valid ∧
    ¬("https://bedrock-runtime.us-east-1.amazonaws.com" : String).isEmpty ∧
    ¬("us-east-1" : String).isEmpty ∧
    ¬("dev" : String).isEmpty := by
  decide

/-- C2 (amended): for a bedrock profile, `validate` returns `Valid` exactly
when `baseUrl` and `awsRegion` are non-empty, at least one auth mode is
satisfied (`awsProfile` non-empty, or both `apiKey` and
`awsSecretAccessKey` non-empty), and any present `timeout` is positive;
when neither auth mode is satisfiable the result is `Invalid` naming both
missing combinations; and removing `awsRegion` from an otherwise-valid
profile yields `Invalid` naming `awsRegion`. -/
theorem c2_bedrock_validate (p : ProviderProfile)
    (hb : p.provider = ProviderKind.bedrock) :
    (validate p = ValidationResult.valid ↔
       (¬p.baseUrl.isEmpty ∧ ¬p.awsRegion.isEmpty ∧
        (¬p.awsProfile.isEmpty ∨
         (¬p.apiKey.isEmpty ∧ ¬p.awsSecretAccessKey.isEmpty)) ∧
        ∀ t, p.timeout = some t → 0 < t)) ∧
    (p.awsProfile.isEmpty →
       (p.apiKey.isEmpty ∨ p.awsSecretAccessKey.isEmpty) →
       ∃ l, validate p = ValidationResult.invalid l ∧
         MissingField.awsProfileAuth ∈ l ∧ MissingField.staticKeysAuth ∈ l) ∧
    (validate p = ValidationResult.valid →
       ∃ l, validate { p with awsRegion := "" } =
           ValidationResult.invalid l ∧
         MissingField.awsRegion ∈ l) := by
  rcases p with ⟨prov, b, k, sk, r, ap, m, t, d, nm⟩
  simp only at hb
  subst hb
  refine ⟨?_, ?_, ?_⟩
  · rw [validate_eq_valid_iff]
    cases t with
    | none =>
        by_cases hB : b.isEmpty <;> by_cases hR : r.isEmpty <;>
        by_cases hAP : ap.isEmpty <;> by_cases hK : k.isEmpty <;>
        by_cases hSK : sk.isEmpty <;>
        simp [missingFields, List.append_eq_nil, hB, hR, hAP, hK, hSK]
    | some tv =>
        by_cases ht : 0 < tv <;> by_cases hB : b.isEmpty <;>
        by_cases hR : r.isEmpty <;> by_cases hAP : ap.isEmpty <;>
        by_cases hK : k.isEmpty <;> by_cases hSK : sk.isEmpty <;>
        simp [missingFields, List.append_eq_nil, hB, hR, hAP, hK, hSK, ht]
  · intro hap hks
    have hcond :
        (ap.isEmpty && (k.isEmpty || sk.isEmpty)) = true := by
      rcases hks with hk | hsk
      · simp [hap, hk]
      · simp [hap, hsk]
    have hmem1 :
        MissingField.awsProfileAuth ∈
          missingFields
            ⟨ProviderKind.bedrock, b, k, sk, r, ap, m, t, d, nm⟩ := by
      simp [missingFields, hcond]
    have hmem2 :
        MissingField.staticKeysAuth ∈
          missingFields
            ⟨ProviderKind.bedrock, b, k, sk, r, ap, m, t, d, nm⟩ := by
      simp [missingFields, hcond]
    have hne :
        missingFields ⟨ProviderKind.bedrock, b, k, sk, r, ap, m, t, d, nm⟩ ≠
          [] := List.ne_nil_of_mem hmem1
    exact ⟨_, validate_eq_invalid _ hne, hmem1, hmem2⟩
  · intro hval
    have hmem :
        MissingField.awsRegion ∈
          missingFields
            ⟨ProviderKind.bedrock, b, k, sk, "", ap, m, t, d, nm⟩ := by
      have hre : ("" : String).isEmpty = true := rfl
      simp [missingFields, hre]
    have hne :
        missingFields ⟨ProviderKind.bedrock, b, k, sk, "", ap, m, t, d, nm⟩ ≠
          [] := List.ne_nil_of_mem hmem
    exact ⟨_, validate_eq_invalid _ hne, hmem⟩

/-- Witness for C2 (amended) at a concrete bedrock profile with
named-profile auth: it validates, and with `awsRegion` removed it becomes
`Invalid` naming `awsRegion`. -/
theorem c2_witness :
    validate
      ⟨ProviderKind.bedrock,
       "https://bedrock-runtime.us-east-1.amazonaws.com", "aws-profile", "",
       "us-east-1", "dev", some "claude", some 300, none, none⟩ =
      ValidationResult.valid ∧
    ∃ l,
      validate
        ⟨ProviderKind.bedrock,
         "https://bedrock-runtime.us-east-1.amazonaws.com", "aws-profile",
         "", "", "dev", some "claude", some 300, none, none⟩ =
        ValidationResult.invalid l ∧
      MissingField.awsRegion ∈ l :=
  ⟨by decide,
   (c2_bedrock_validate
      ⟨ProviderKind.bedrock,
       "https://bedrock-runtime.us-east-1.amazonaws.com", "aws-profile", "",
       "us-east-1", "dev", some "claude", some 300, none, none⟩
      rfl).2.2 (by decide)⟩

end CodeMie
